import Mathlib

/-!
Shallow embedding of the lazy paginated query engine of
`src/cbc_sdk/endpoint_standard/base.py` (classes `Query` and
`EnrichedEventQuery`), together with theorems settling the claims about it.

Conventions of the embedding:
* Python exceptions become an explicit `PyExc` value threaded through
  results; mutation that has already happened before a raise is kept in the
  returned state, as in Python.
* The HTTP transport is an abstract environment: a function from the request
  data the code actually sends (start offset, rows) to the parsed JSON
  fields the code actually reads (`totalResults` / `results` /
  `num_available` / `contacted` / `completed`).
* `time.time() * 1000` readings are an abstract clock supplied by the
  environment, indexed by the poll number.
* Result rows are opaque and modelled as natural numbers.
* Generator functions (`_search`) are modelled by full consumption: the
  function returns the list of all yielded rows plus the trace of requests
  issued, using explicit fuel for the `while` loops.
-/

/-- Python exceptions that the modelled code can raise.
`apiError` is `cbc_sdk.errors.ApiError` (the error the specification calls
UsageError); `typeError` is the Python builtin `TypeError`. -/
inductive PyExc where
  | apiError (msg : String)
  | typeError (msg : String)
deriving DecidableEq, Repr

/-! ## Synchronous offset-paginated search (`Query`) -/

/-- The query parameters of one synchronous page GET that are relevant to
pagination: the optional `start` parameter (absent on the first request when
the caller passes `start=0`, per the `if start != 0` guard) and the `rows`
parameter (always set to the batch size).  Filter parameters contributed by
`prepare_query` are constant across batches and elided. -/
structure SyncReq where
  start : Option Nat
  rows : Nat
deriving DecidableEq, Repr

/-- The fields of a synchronous search response that `Query._search` reads:
`totalResults` (read with default 0) and `results`, where `none` models a
JSON null result list and `some []` an empty list. -/
structure SyncResp where
  totalResults : Nat
  results : Option (List Nat)
deriving DecidableEq, Repr

/-- The mutable state of `Query._search` mid-iteration: the pending
`args['start']` value, the running `current` and `numrows` counters, and the
query instance fields `_total_results` / `_count_valid`. -/
structure SyncSt where
  argsStart : Option Nat
  current : Nat
  numrows : Nat
  total_results : Nat
  count_valid : Bool
deriving DecidableEq, Repr

/-- The inner `for item in results` loop of `Query._search`: yields items
one at a time, incrementing `current` and `numrows`, and breaks out (setting
`still_querying = False`, returned here as the final Bool) as soon as
`rows and numrows == rows` holds after an increment. Returns the yielded
items, the new `current`, the new `numrows`, and the break flag. -/
def consumeRows (rowsLimit : Nat) : List Nat → Nat → Nat → (List Nat × Nat × Nat × Bool)
  | [], c, n => ([], c, n, false)
  | x :: rest, c, n =>
      if rowsLimit ≠ 0 ∧ n + 1 = rowsLimit then ([x], c + 1, n + 1, true)
      else
        let r := consumeRows rowsLimit rest (c + 1) (n + 1)
        (x :: r.1, r.2.1, r.2.2.1, r.2.2.2)

/-- One iteration of the `while still_querying` loop of `Query._search`:
issue the GET, refresh `_total_results` and `_count_valid` from the
response, break on a null result list, yield the batch through the inner
loop, set `args['start'] = current + 1` (the 1-based continuation), then
break if `current >= self._total_results`, then clamp `_total_results` to
`current` and break if the batch was empty.  Returns the yielded items, the
request issued, the new state and whether the loop continues. -/
def syncStep (srv : SyncReq → SyncResp) (batch rowsLimit : Nat) (st : SyncSt) :
    List Nat × SyncReq × SyncSt × Bool :=
  let req : SyncReq := ⟨st.argsStart, batch⟩
  let resp := srv req
  let stA : SyncSt := { st with total_results := resp.totalResults, count_valid := true }
  match resp.results with
  | none => ([], req, stA, false)
  | some items =>
      let r := consumeRows rowsLimit items stA.current stA.numrows
      let stB : SyncSt :=
        { stA with current := r.2.1, numrows := r.2.2.1, argsStart := some (r.2.1 + 1) }
      if r.2.1 ≥ stB.total_results then (r.1, req, stB, false)
      else if items.isEmpty then (r.1, req, { stB with total_results := r.2.1 }, false)
      else if r.2.2.2 then (r.1, req, stB, false)
      else (r.1, req, stB, true)

/-- The `while still_querying` loop of `Query._search`, with fuel bounding
the number of iterations.  Returns all yielded rows, the list of requests
issued each paired with the number of rows consumed from its response, and
the final state. -/
def syncRun (srv : SyncReq → SyncResp) (batch rowsLimit : Nat) :
    Nat → SyncSt → List Nat × List (SyncReq × Nat) × SyncSt
  | 0, st => ([], [], st)
  | fuel + 1, st =>
      let s := syncStep srv batch rowsLimit st
      if s.2.2.2 then
        let rest := syncRun srv batch rowsLimit fuel s.2.2.1
        (s.1 ++ rest.1, (s.2.1, s.1.length) :: rest.2.1, rest.2.2)
      else (s.1, [(s.2.1, s.1.length)], s.2.2.1)

/-- The state of `Query._search` at entry for a caller-supplied `start`,
on a fresh query instance: `args['start']` is only set when `start != 0`,
and `_total_results = 0`, `_count_valid = False`. -/
def initSyncSt (start : Nat) : SyncSt :=
  { argsStart := if start = 0 then none else some start
    current := start
    numrows := 0
    total_results := 0
    count_valid := false }

/-- Full consumption of the generator `Query._search(start, rows)` on a
fresh query instance, against server `srv`, with batch size `batch`. -/
def Query._search (srv : SyncReq → SyncResp) (batch fuel start rowsLimit : Nat) :
    List Nat × List (SyncReq × Nat) × SyncSt :=
  syncRun srv batch rowsLimit fuel (initSyncSt start)

/-- Embedding of `Query._count`: if `_count_valid`, return the cached
`_total_results` with no request; otherwise issue one GET whose response
`totalResults` field is `respTotal`, cache it, and mark the count valid.
Returns the count, the new state, and the number of requests issued. -/
def Query._count (respTotal : Nat) (st : SyncSt) : Nat × SyncSt × Nat :=
  if st.count_valid then (st.total_results, st, 0)
  else (respTotal, { st with total_results := respTotal, count_valid := true }, 1)

/-- Server with exactly 250 rows: a request starting at 1-based offset `s`
(absent start meaning the beginning) receives rows `s-1, ..., s-1+rows-1`
of `0, ..., 249`, and `totalResults = 250`. -/
def c1srv (req : SyncReq) : SyncResp :=
  ⟨250, some (((List.range 250).drop (req.start.getD 1 - 1)).take req.rows)⟩

/-- Server exhibiting count drift: it reports `totalResults = 10` but only
the first request (no start parameter) delivers rows `0, ..., 4`; any later
request delivers an empty list. -/
def c2srv (req : SyncReq) : SyncResp :=
  if req.start = none then ⟨10, some [0, 1, 2, 3, 4]⟩ else ⟨10, some []⟩

/-! ## Asynchronous job-based search (`EnrichedEventQuery`) -/

/-- The fields of a job status response that `_still_querying` reads, each
with `.get` default 0. -/
structure Status where
  contacted : Nat
  completed : Nat
deriving DecidableEq, Repr

/-- The fields of a results page that `EnrichedEventQuery._search` reads:
`num_available` (default 0) and `results` (default empty). -/
structure EEPage where
  num_available : Nat
  results : List Nat
deriving DecidableEq, Repr

/-- The abstract environment of an `EnrichedEventQuery`: the `job_id` the
submit POST returns (possibly absent), the clock reading
`time.time() * 1000` at submission, the status response and clock reading of
the i-th `_still_querying` poll, the results page for a paged fetch starting
at a given offset, and the `num_available` read by the parameterless results
GET of `_count`. -/
structure AsyncEnv where
  job_id : Option String
  submitTime : Int
  statuses : Nat → Status
  pollTimes : Nat → Int
  pages : Nat → EEPage
  countAvail : Nat

/-- The fields of an `EnrichedEventQuery` instance the claims touch:
`_query_token`, `_timeout`, `_timed_out`, `_submit_time`,
`_total_results` and `_count_valid`. -/
structure EEQ where
  query_token : Option String
  timeout : Int
  timed_out : Bool
  submit_time : Int
  total_results : Nat
  count_valid : Bool
deriving DecidableEq, Repr

/-- Python truthiness of the `_query_token` field: `None` and the empty
string are falsy, any other string truthy. -/
def truthy : Option String → Bool
  | none => false
  | some s => !s.isEmpty

/-- A freshly constructed `EnrichedEventQuery`: no token, timeout 0,
not timed out, zero counters. -/
def freshEEQ : EEQ :=
  { query_token := none
    timeout := 0
    timed_out := false
    submit_time := 0
    total_results := 0
    count_valid := false }

/-- The request-issue counters of one modelled operation: job-creation
POSTs, status GETs, and results GETs (the count-determining requests). -/
structure Trace where
  posts : Nat
  statusGets : Nat
  resultGets : Nat
deriving DecidableEq, Repr

/-- Componentwise sum of traces. -/
def Trace.add (a b : Trace) : Trace :=
  ⟨a.posts + b.posts, a.statusGets + b.statusGets, a.resultGets + b.resultGets⟩

/-- Embedding of `EnrichedEventQuery._submit`: if the stored token is truthy
it raises `ApiError` without issuing the POST or touching any field;
otherwise it POSTs the job, stores the returned `job_id` as the token,
clears `_timed_out` and records the submission clock reading.  Returns the
new state, the raised exception if any, and the number of POSTs issued. -/
def EnrichedEventQuery._submit (env : AsyncEnv) (st : EEQ) : EEQ × Option PyExc × Nat :=
  if truthy st.query_token then
    (st, some (.apiError ("Query already submitted: token " ++ st.query_token.getD "")), 0)
  else
    ({ st with query_token := env.job_id, timed_out := false, submit_time := env.submitTime },
     none, 1)

/-- The decision logic of `_still_querying` once the status response has
been read: `contacted == 0` keeps waiting; `completed < contacted` keeps
waiting unless a nonzero `_timeout` has elapsed since submission, in which
case `_timed_out` is set and the wait ends; otherwise the wait ends.
Returns the value of `_still_querying` and the new `_timed_out` flag. -/
def stillQueryingDecision (timeout submitTime now : Int) (timedOut : Bool)
    (contacted completed : Nat) : Bool × Bool :=
  if contacted = 0 then (true, timedOut)
  else if completed < contacted then
    if timeout ≠ 0 ∧ now - submitTime > timeout then (false, true)
    else (true, timedOut)
  else (false, timedOut)

/-- Embedding of `EnrichedEventQuery._still_querying` at poll number `i`:
if the token is falsy the job is first submitted (the duplicate-submission
check inside `_submit` is vacuous under that guard, so the submit branch is
inlined), then the status endpoint is polled and the timeout logic applied.
Returns the boolean result, the new state, and the requests issued. -/
def EnrichedEventQuery._still_querying (env : AsyncEnv) (i : Nat) (st : EEQ) :
    Bool × EEQ × Trace :=
  let sub :=
    if truthy st.query_token then (st, 0)
    else ({ st with query_token := env.job_id, timed_out := false, submit_time := env.submitTime }, 1)
  let s := env.statuses i
  let d := stillQueryingDecision sub.1.timeout sub.1.submit_time (env.pollTimes i)
    sub.1.timed_out s.contacted s.completed
  (d.1, { sub.1 with timed_out := d.2 }, ⟨sub.2, 1, 0⟩)

/-- The `while self._still_querying(): time.sleep(.5)` polling loop shared
by `_count` and `_search`, with fuel bounding the number of polls.  Returns
whether the loop exited (as opposed to running out of fuel), the next poll
number, the final state, and the accumulated trace. -/
def pollLoop (env : AsyncEnv) : Nat → Nat → EEQ → Bool × Nat × EEQ × Trace
  | 0, i, st => (false, i, st, ⟨0, 0, 0⟩)
  | fuel + 1, i, st =>
      let q := EnrichedEventQuery._still_querying env i st
      if q.1 then
        let rest := pollLoop env fuel (i + 1) q.2.1
        (rest.1, rest.2.1, rest.2.2.1, Trace.add q.2.2 rest.2.2.2)
      else (true, i + 1, q.2.1, q.2.2)

/-- The exception actually raised by the statement
`raise TimeoutError(message=...)` in `EnrichedEventQuery._count` and
`_search`: this module imports only `ApiError` and `ServerError` from
`cbc_sdk.errors`, so the name `TimeoutError` resolves to the Python builtin,
and builtin exception classes reject keyword arguments, so evaluating the
constructor call raises `TypeError` before any timeout error exists. -/
def timeoutRaiseResult : PyExc := .typeError "TimeoutError() takes no keyword arguments"

/-- Embedding of `EnrichedEventQuery._count`: return the cached total when
`_count_valid`; otherwise poll until `_still_querying` is false, raise if
`_timed_out` was set, else GET the results endpoint once, cache
`num_available` and return it.  Returns `none` when the poll fuel runs out,
otherwise the outcome, plus the next poll number, new state and trace. -/
def EnrichedEventQuery._count (env : AsyncEnv) (fuel i : Nat) (st : EEQ) :
    Option (Except PyExc Nat) × Nat × EEQ × Trace :=
  if st.count_valid then (some (.ok st.total_results), i, st, ⟨0, 0, 0⟩)
  else
    let p := pollLoop env fuel i st
    if p.1 then
      if p.2.2.1.timed_out then (some (.error timeoutRaiseResult), p.2.1, p.2.2.1, p.2.2.2)
      else
        (some (.ok env.countAvail), p.2.1,
         { p.2.2.1 with total_results := env.countAvail, count_valid := true },
         Trace.add p.2.2.2 ⟨0, 0, 1⟩)
    else (none, p.2.1, p.2.2.1, p.2.2.2)

/-- The inner `for item in results` loop of `EnrichedEventQuery._search`:
like the synchronous one but the row-limit check is
`rows and rows_fetched >= rows`. -/
def eeConsume (rowsLimit : Nat) : List Nat → Nat → Nat → (List Nat × Nat × Nat × Bool)
  | [], c, n => ([], c, n, false)
  | x :: rest, c, n =>
      if rowsLimit ≠ 0 ∧ n + 1 ≥ rowsLimit then ([x], c + 1, n + 1, true)
      else
        let r := eeConsume rowsLimit rest (c + 1) (n + 1)
        (x :: r.1, r.2.1, r.2.2.1, r.2.2.2)

/-- The `while still_fetching` fetch loop of `EnrichedEventQuery._search`:
each iteration GETs the results page at offset `current`, refreshes
`_total_results` from `num_available` and sets `_count_valid`, yields the
page, and keeps fetching unless the row limit was hit or
`current >= self._total_results`.  Returns the yielded rows, the final
state and the number of results GETs. -/
def fetchLoop (env : AsyncEnv) (rowsLimit : Nat) :
    Nat → Nat → Nat → EEQ → List Nat × EEQ × Nat
  | 0, _, _, st => ([], st, 0)
  | fuel + 1, current, fetched, st =>
      let page := env.pages current
      let st1 : EEQ := { st with total_results := page.num_available, count_valid := true }
      let r := eeConsume rowsLimit page.results current fetched
      if r.2.2.2 ∨ r.2.1 ≥ st1.total_results then (r.1, st1, 1)
      else
        let rest := fetchLoop env rowsLimit fuel r.2.1 r.2.2.1 st1
        (r.1 ++ rest.1, rest.2.1, rest.2.2 + 1)

/-- Full consumption of the generator `EnrichedEventQuery._search(start,
rows)`: submit if no token is stored, poll to completion, raise on timeout,
then page through the results endpoint. -/
def EnrichedEventQuery._search (env : AsyncEnv) (fuel i : Nat) (st : EEQ)
    (start rowsLimit : Nat) : Option (Except PyExc (List Nat)) × EEQ × Trace :=
  let sub :=
    if truthy st.query_token then (st, 0)
    else ({ st with query_token := env.job_id, timed_out := false, submit_time := env.submitTime }, 1)
  let p := pollLoop env fuel i sub.1
  let tr := Trace.add ⟨sub.2, 0, 0⟩ p.2.2.2
  if p.1 then
    if p.2.2.1.timed_out then (some (.error timeoutRaiseResult), p.2.2.1, tr)
    else
      let f := fetchLoop env rowsLimit fuel start 0 p.2.2.1
      (some (.ok f.1), f.2.1, Trace.add tr ⟨0, 0, f.2.2⟩)
  else (none, p.2.2.1, tr)

/-- Total count-determining requests issued by `n` successive `_count`
calls on the same synchronous query instance. -/
def sync_count_n (respTotal : Nat) : Nat → SyncSt → Nat
  | 0, _ => 0
  | n + 1, st =>
      let r := Query._count respTotal st
      r.2.2 + sync_count_n respTotal n r.2.1

/-- Total count-determining (results GET) requests issued by `n` successive
`_count` calls on the same `EnrichedEventQuery` instance, threading the
poll number and state. -/
def ee_count_n (env : AsyncEnv) (fuel : Nat) : Nat → Nat → EEQ → Nat
  | 0, _, _ => 0
  | n + 1, i, st =>
      let r := EnrichedEventQuery._count env fuel i st
      r.2.2.2.resultGets + ee_count_n env fuel n r.2.1 r.2.2.1

/-- Concrete environment for the timeout scenario: the job is created with
token J1 at clock 0, every status poll reports one searcher contacted and
none completed, and the i-th poll happens 500 ms after the previous one
(the poll loop sleeps 0.5 s between checks). -/
def env3 : AsyncEnv :=
  { job_id := some "J1"
    submitTime := 0
    statuses := fun _ => ⟨1, 0⟩
    pollTimes := fun i => 500 * ((i : Int) + 1)
    pages := fun _ => ⟨0, []⟩
    countAvail := 0 }

/-- A fresh `EnrichedEventQuery` on which `timeout(100)` has been called. -/
def st3 : EEQ := { freshEEQ with timeout := 100 }

/-- Concrete benign environment: the job is created with token J1, the
first status poll already reports all searchers completed, and the result
set has exactly the three rows 0, 1, 2. -/
def env0 : AsyncEnv :=
  { job_id := some "J1"
    submitTime := 0
    statuses := fun _ => ⟨1, 1⟩
    pollTimes := fun i => 500 * ((i : Int) + 1)
    pages := fun s => ⟨3, (List.range 3).drop s⟩
    countAvail := 3 }

/-! ## Sort specification (`EnrichedEventQuery.sort_by`) -/

/-- One entry of the `_sort` list: a dict with keys `field` and `order`. -/
structure SortItem where
  field : String
  order : String
deriving DecidableEq, Repr

/-- Embedding of `EnrichedEventQuery.sort_by`: walk `_sort`, overwriting
the `order` of every entry whose `field` equals `key`; if none matched,
append a new entry.  (The method also mirrors `_sort` into
`_default_args['sort']` and returns `self`; both are implicit here.) -/
def EnrichedEventQuery.sort_by (sort : List SortItem) (key direction : String) :
    List SortItem :=
  if sort.any (fun it => it.field = key) then
    sort.map (fun it => if it.field = key then { it with order := direction } else it)
  else sort ++ [⟨key, direction⟩]

/-- The `_sort` list after a sequence of `sort_by(key, direction)` calls on
a fresh `EnrichedEventQuery` (whose `_sort` starts empty). -/
def sortSeq (calls : List (String × String)) : List SortItem :=
  calls.foldl (fun l c => EnrichedEventQuery.sort_by l c.1 c.2) []

/-! ## Time range (`EnrichedEventQuery.set_time_range`) -/

/-- Python values that can be passed as a `set_time_range` argument, with
their truthiness: `None`, `0`, `""` and `False` are falsy. -/
inductive PyV where
  | vnone
  | vint (n : Int)
  | vstr (s : String)
  | vbool (b : Bool)
deriving DecidableEq, Repr

/-- Python truthiness of a `PyV`. -/
def PyV.truthy : PyV → Bool
  | .vnone => false
  | .vint n => n ≠ 0
  | .vstr s => !s.isEmpty
  | .vbool b => b

/-- Whether a `PyV` passes `isinstance(x, str)`. -/
def PyV.isStr : PyV → Bool
  | .vstr _ => true
  | _ => false

/-- The `_time_range` dict: at most one entry per key. -/
structure TimeRange where
  start : Option String
  end_ : Option String
  window : Option String
deriving DecidableEq, Repr

/-- The `if start:` block of `set_time_range`: skipped when `start` is
falsy; raises `ApiError` when `start` is truthy but not a string; stores
the string otherwise. -/
def setStart (tr : TimeRange) (v : PyV) : TimeRange × Option PyExc :=
  if v.truthy then
    match v with
    | .vstr s => ({ tr with start := some s }, none)
    | _ => (tr, some (.apiError "Start time must be a string in ISO 8601 format."))
  else (tr, none)

/-- The `if end:` block of `set_time_range`, analogous to `setStart`. -/
def setEnd (tr : TimeRange) (v : PyV) : TimeRange × Option PyExc :=
  if v.truthy then
    match v with
    | .vstr s => ({ tr with end_ := some s }, none)
    | _ => (tr, some (.apiError "End time must be a string in ISO 8601 format."))
  else (tr, none)

/-- The `if window:` block of `set_time_range`, analogous to `setStart`. -/
def setWindow (tr : TimeRange) (v : PyV) : TimeRange × Option PyExc :=
  if v.truthy then
    match v with
    | .vstr s => ({ tr with window := some s }, none)
    | _ => (tr, some (.apiError "Window must be a string."))
  else (tr, none)

/-- Embedding of `EnrichedEventQuery.set_time_range(start, end, window)`:
the three argument blocks run in order, a raise aborts the rest but keeps
the assignments already made.  Returns the final `_time_range` and the
raised exception if any. -/
def EnrichedEventQuery.set_time_range (tr : TimeRange) (s e w : PyV) :
    TimeRange × Option PyExc :=
  let r1 := setStart tr s
  match r1.2 with
  | some err => (r1.1, some err)
  | none =>
      let r2 := setEnd r1.1 e
      match r2.2 with
      | some err => (r2.1, some err)
      | none => setWindow r2.1 w

/-! ## Filter combination (`or_`) -/

/-- Modelled from the spec: a FilterExpression is an ordered tree of leaf
`(key, value)` clauses linked by AND/OR combinators (spec section 3).  The
class holding it, `QueryBuilder`, lives in `cbc_sdk/base.py`, which is not
among the provided sources. -/
inductive FilterExpr where
  | leaf (key value : String)
  | andE (l r : FilterExpr)
  | orE (l r : FilterExpr)
deriving DecidableEq, Repr

/-- Modelled from the spec: the accumulated filter of a `QueryBuilder`,
empty on a fresh builder. -/
structure QB where
  q : Option FilterExpr
deriving DecidableEq, Repr

/-- Modelled from the spec: `QueryBuilder.or_(**kwargs)` appends a clause
combined with OR, requiring the builder to be non-empty first and failing
otherwise (spec section 4.1).  `QueryBuilder` itself is defined in
`cbc_sdk/base.py`, which is not among the provided sources. -/
def QB.or_ (qb : QB) (key value : String) : QB × Option PyExc :=
  match qb.q with
  | none => (qb, some (.apiError "or_ requires a query to already exist"))
  | some e => (⟨some (.orE e (.leaf key value))⟩, none)

/-- Embedding of the synchronous `Query.or_`: unconditionally raises
`ApiError`, never touching the builder. -/
def Query.or_ (qb : QB) (_key _value : String) : QB × Option PyExc :=
  (qb, some (.apiError ".or_() cannot be called on Endpoint Standard queries."))

/-- Embedding of `EnrichedEventQuery.or_`: overrides the base rejection and
delegates to `QueryBuilder.or_` with the keyword clause (the method then
returns `self` for chaining). -/
def EnrichedEventQuery.or_ (qb : QB) (key value : String) : QB × Option PyExc :=
  QB.or_ qb key value

/-! ## Helper lemmas -/

set_option maxRecDepth 8000

theorem still_querying_count_valid (env : AsyncEnv) (i : Nat) (st : EEQ) :
    (EnrichedEventQuery._still_querying env i st).2.1.count_valid = st.count_valid := by
  by_cases h : truthy st.query_token <;>
    simp [EnrichedEventQuery._still_querying, h]

theorem still_querying_resultGets (env : AsyncEnv) (i : Nat) (st : EEQ) :
    (EnrichedEventQuery._still_querying env i st).2.2.resultGets = 0 := by
  by_cases h : truthy st.query_token <;>
    simp [EnrichedEventQuery._still_querying, h]

theorem still_querying_token_truthy (env : AsyncEnv) (i : Nat) (st : EEQ)
    (h : truthy st.query_token = true) :
    (EnrichedEventQuery._still_querying env i st).2.1.query_token = st.query_token
    ∧ (EnrichedEventQuery._still_querying env i st).2.2.posts = 0 := by
  simp [EnrichedEventQuery._still_querying, h]

theorem pollLoop_count_valid (env : AsyncEnv) :
    ∀ (fuel i : Nat) (st : EEQ),
      (pollLoop env fuel i st).2.2.1.count_valid = st.count_valid := by
  intro fuel
  induction fuel with
  | zero => intro i st; rfl
  | succ n ih =>
      intro i st
      simp only [pollLoop]
      split
      · rw [ih, still_querying_count_valid]
      · rw [still_querying_count_valid]

theorem pollLoop_resultGets (env : AsyncEnv) :
    ∀ (fuel i : Nat) (st : EEQ),
      (pollLoop env fuel i st).2.2.2.resultGets = 0 := by
  intro fuel
  induction fuel with
  | zero => intro i st; rfl
  | succ n ih =>
      intro i st
      simp only [pollLoop]
      split
      · simp [Trace.add, ih, still_querying_resultGets]
      · exact still_querying_resultGets env i st

theorem pollLoop_posts_truthy (env : AsyncEnv) :
    ∀ (fuel i : Nat) (st : EEQ), truthy st.query_token = true →
      (pollLoop env fuel i st).2.2.2.posts = 0
      ∧ (pollLoop env fuel i st).2.2.1.query_token = st.query_token := by
  intro fuel
  induction fuel with
  | zero => intro i st h; exact ⟨rfl, rfl⟩
  | succ n ih =>
      intro i st h
      have hq := still_querying_token_truthy env i st h
      simp only [pollLoop]
      split
      · have ih2 := ih (i + 1) (EnrichedEventQuery._still_querying env i st).2.1
          (by rw [hq.1]; exact h)
        constructor
        · simp [Trace.add, hq.2, ih2.1]
        · rw [ih2.2, hq.1]
      · exact ⟨hq.2, hq.1⟩

theorem ee_count_valid (env : AsyncEnv) (fuel i : Nat) (st : EEQ)
    (h : st.count_valid = true) :
    EnrichedEventQuery._count env fuel i st = (some (.ok st.total_results), i, st, ⟨0, 0, 0⟩) := by
  simp [EnrichedEventQuery._count, h]

theorem ee_count_cases (env : AsyncEnv) (fuel i : Nat) (st : EEQ) :
    ((EnrichedEventQuery._count env fuel i st).2.2.2.resultGets = 0
      ∧ (EnrichedEventQuery._count env fuel i st).2.2.1.count_valid = st.count_valid)
    ∨ ((EnrichedEventQuery._count env fuel i st).2.2.2.resultGets = 1
      ∧ (EnrichedEventQuery._count env fuel i st).2.2.1.count_valid = true) := by
  by_cases h : st.count_valid
  · left; rw [ee_count_valid env fuel i st h]; exact ⟨rfl, rfl⟩
  · simp only [EnrichedEventQuery._count, h, if_false, Bool.false_eq_true]
    rw [Bool.not_eq_true] at h
    split
    · split
      · left
        exact ⟨pollLoop_resultGets env fuel i st, (pollLoop_count_valid env fuel i st).trans h⟩
      · right
        constructor
        · simp [Trace.add, pollLoop_resultGets env fuel i st]
        · rfl
    · left
      exact ⟨pollLoop_resultGets env fuel i st, (pollLoop_count_valid env fuel i st).trans h⟩

theorem ee_count_n_valid (env : AsyncEnv) (fuel : Nat) :
    ∀ (n i : Nat) (st : EEQ), st.count_valid = true → ee_count_n env fuel n i st = 0 := by
  intro n
  induction n with
  | zero => intro i st _; rfl
  | succ m ih =>
      intro i st h
      simp only [ee_count_n]
      rw [ee_count_valid env fuel i st h]
      simp [ih i st h]

theorem ee_count_n_le_one (env : AsyncEnv) (fuel : Nat) :
    ∀ (n i : Nat) (st : EEQ), ee_count_n env fuel n i st ≤ 1 := by
  intro n
  induction n with
  | zero => intro i st; simp [ee_count_n]
  | succ m ih =>
      intro i st
      simp only [ee_count_n]
      rcases ee_count_cases env fuel i st with ⟨h0, _⟩ | ⟨h1, hv⟩
      · rw [h0]; simpa using ih _ _
      · rw [h1, ee_count_n_valid env fuel m _ _ hv]

theorem sync_count_valid (respTotal : Nat) (st : SyncSt) (h : st.count_valid = true) :
    Query._count respTotal st = (st.total_results, st, 0) := by
  simp [Query._count, h]

theorem sync_count_n_le_one (respTotal : Nat) :
    ∀ (n : Nat) (st : SyncSt), sync_count_n respTotal n st ≤ 1 := by
  have hvalid : ∀ (n : Nat) (st : SyncSt), st.count_valid = true →
      sync_count_n respTotal n st = 0 := by
    intro n
    induction n with
    | zero => intro st _; rfl
    | succ m ih =>
        intro st h
        simp only [sync_count_n]
        rw [sync_count_valid respTotal st h]
        simp [ih st h]
  intro n
  induction n with
  | zero => intro st; simp [sync_count_n]
  | succ m ih =>
      intro st
      simp only [sync_count_n]
      by_cases h : st.count_valid
      · rw [sync_count_valid respTotal st h]
        simpa using ih st
      · simp only [Query._count, h, if_false, Bool.false_eq_true]
        rw [hvalid m _ rfl]

theorem pollLoop_posts_one (env : AsyncEnv)
    (hjob : truthy env.job_id = true) :
    ∀ (fuel i : Nat) (st : EEQ), st.query_token = none → 1 ≤ fuel →
      (pollLoop env fuel i st).2.2.2.posts = 1 := by
  intro fuel
  cases fuel with
  | zero => intro i st _ hf; omega
  | succ n =>
      intro i st htok _
      have hsub : (EnrichedEventQuery._still_querying env i st).2.1.query_token = env.job_id
          ∧ (EnrichedEventQuery._still_querying env i st).2.2.posts = 1 := by
        simp [EnrichedEventQuery._still_querying, truthy, htok]
      simp only [pollLoop]
      split
      · have h0 := pollLoop_posts_truthy env n (i + 1)
          (EnrichedEventQuery._still_querying env i st).2.1 (by rw [hsub.1]; exact hjob)
        simp [Trace.add, hsub.2, h0.1]
      · exact hsub.2

theorem sort_by_fields_present (l : List SortItem) (key d : String)
    (h : l.any (fun it => it.field = key) = true) :
    (EnrichedEventQuery.sort_by l key d).map (fun it => it.field) =
      l.map (fun it => it.field) := by
  simp only [EnrichedEventQuery.sort_by, h, if_true, List.map_map]
  apply List.map_congr_left
  intro a _
  simp only [Function.comp]
  split <;> rfl

theorem sort_by_nodup (key d : String) (l : List SortItem)
    (h : (l.map (fun it => it.field)).Nodup) :
    ((EnrichedEventQuery.sort_by l key d).map (fun it => it.field)).Nodup := by
  by_cases hp : l.any (fun it => it.field = key) = true
  · rw [sort_by_fields_present l key d hp]; exact h
  · simp only [EnrichedEventQuery.sort_by, hp, Bool.false_eq_true, if_false]
    rw [List.map_append]
    apply List.Nodup.append h (by simp)
    intro a ha hb
    simp only [List.map_cons, List.map_nil, List.mem_singleton] at hb
    subst hb
    simp only [List.mem_map] at ha
    obtain ⟨it, hit, hfield⟩ := ha
    rw [List.any_eq_true] at hp
    exact hp ⟨it, hit, by simp [hfield]⟩

theorem sortSeq_nodup_from (calls : List (String × String)) :
    ∀ l : List SortItem, (l.map (fun it => it.field)).Nodup →
      ((calls.foldl (fun l c => EnrichedEventQuery.sort_by l c.1 c.2) l).map
        (fun it => it.field)).Nodup := by
  induction calls with
  | nil => intro l h; exact h
  | cons c rest ih =>
      intro l h
      exact ih _ (sort_by_nodup c.1 c.2 l h)

/-! ## Claims -/

/-- C1: against a server holding 250 rows with batch size 100, the
synchronous `Query._search` issues exactly three page requests, the first
with no start parameter (caller start unindexed) and the later ones with
start values 101 and 201, consuming 100, 100 and 50 rows respectively; and
in general, whenever an iteration of the search loop continues, the next
request carries `start = current + 1` where `current` counts the rows
consumed so far (the 1-based continuation invariant of the backend). -/
theorem C1_sync_pagination_three_requests :
    ((Query._search c1srv 100 10 0 0).2.1 =
      [(⟨none, 100⟩, 100), (⟨some 101, 100⟩, 100), (⟨some 201, 100⟩, 50)]
     ∧ (Query._search c1srv 100 10 0 0).1.length = 250)
    ∧ ∀ (srv : SyncReq → SyncResp) (batch rowsLimit : Nat) (st : SyncSt),
        (syncStep srv batch rowsLimit st).2.2.2 = true →
        (syncStep srv batch rowsLimit st).2.2.1.argsStart =
          some ((syncStep srv batch rowsLimit st).2.2.1.current + 1) := by
  constructor
  · exact ⟨by decide, by decide⟩
  · intro srv batch rowsLimit st h
    rcases hr : (srv ⟨st.argsStart, batch⟩).results with _ | items
    · simp [syncStep, hr] at h
    · simp only [syncStep, hr] at h ⊢
      split_ifs at h ⊢
      all_goals rfl

theorem C1_sync_pagination_three_requests_witness :
    (syncStep c1srv 100 0 (initSyncSt 0)).2.2.1.argsStart =
      some ((syncStep c1srv 100 0 (initSyncSt 0)).2.2.1.current + 1) :=
  C1_sync_pagination_three_requests.2 c1srv 100 0 (initSyncSt 0) (by decide)

/-- C2: whenever an iteration of the synchronous search loop receives an
empty (non-null) result list while the accumulated count is still strictly
below the freshly reported `totalResults`, the loop clamps
`_total_results` to the accumulated count and stops, and a subsequent
`_count()` on the same instance returns the accumulated count with no
further request; illustrated concretely by a server that reports 10 rows
but delivers only 5. -/
theorem C2_empty_batch_clamps_count :
    (∀ (srv : SyncReq → SyncResp) (batch rowsLimit : Nat) (st : SyncSt) (rt : Nat),
        (srv ⟨st.argsStart, batch⟩).results = some [] →
        st.current < (srv ⟨st.argsStart, batch⟩).totalResults →
        syncStep srv batch rowsLimit st =
          ([], ⟨st.argsStart, batch⟩, { st with argsStart := some (st.current + 1), total_results := st.current, count_valid := true }, false)
        ∧ Query._count rt { st with argsStart := some (st.current + 1), total_results := st.current, count_valid := true } =
          (st.current, { st with argsStart := some (st.current + 1), total_results := st.current, count_valid := true }, 0))
    ∧ ((Query._search c2srv 100 10 0 0).1.length = 5
       ∧ (Query._search c2srv 100 10 0 0).2.2.total_results = 5
       ∧ (Query._count 99 (Query._search c2srv 100 10 0 0).2.2).1 = 5) := by
  constructor
  · intro srv batch rowsLimit st rt hr hlt
    constructor
    · simp only [syncStep, hr, consumeRows]
      rw [if_neg (by omega)]
      simp
    · simp [Query._count]
  · exact ⟨by decide, by decide, by decide⟩

theorem C2_empty_batch_clamps_count_witness :
    syncStep c2srv 100 0 ⟨some 6, 5, 5, 10, true⟩ =
      ([], ⟨some 6, 100⟩, ⟨some 6, 5, 5, 5, true⟩, false)
    ∧ Query._count 99 ⟨some 6, 5, 5, 5, true⟩ = (5, ⟨some 6, 5, 5, 5, true⟩, 0) :=
  C2_empty_batch_clamps_count.1 c2srv 100 0 ⟨some 6, 5, 5, 10, true⟩ 99 (by decide) (by decide)

/-- C3: with `timeout(100)` set and a status endpoint that always reports
`completed < contacted`, both `_count()` and `_search()` terminate the poll
loop with `_timed_out` set — but the `raise TimeoutError(message=...)`
statement they then execute constructs the Python builtin `TimeoutError`
(the module never imports the SDK exception of that name) with a keyword
argument, which builtin exceptions reject, so the call fails with
`TypeError` instead of the distinct timeout error the specification
requires. -/
theorem C3_timeout_raises_builtin_type_error :
    (EnrichedEventQuery._count env3 5 0 st3).1 = some (.error timeoutRaiseResult)
    ∧ (EnrichedEventQuery._count env3 5 0 st3).2.2.1.timed_out = true
    ∧ (EnrichedEventQuery._search env3 5 0 st3 0 0).1 = some (.error timeoutRaiseResult)
    ∧ timeoutRaiseResult = PyExc.typeError "TimeoutError() takes no keyword arguments"
    ∧ st3.timeout = 100 ∧ (env3.statuses 0).completed < (env3.statuses 0).contacted := by
  refine ⟨rfl, rfl, rfl, rfl, by decide, by decide⟩

/-- C4: on a submitted query with `_timeout = 0`, `_still_querying` leaves
the state unchanged, issues exactly one status GET, and returns true
exactly when `contacted == 0` or `completed < contacted`; equivalently it
returns false exactly when `contacted > 0` and `completed >= contacted`. -/
theorem C4_still_querying_with_zero_timeout :
    ∀ (env : AsyncEnv) (i : Nat) (st : EEQ), truthy st.query_token = true → st.timeout = 0 →
      EnrichedEventQuery._still_querying env i st =
        (decide ((env.statuses i).contacted = 0
           ∨ (env.statuses i).completed < (env.statuses i).contacted),
         st, ⟨0, 1, 0⟩)
      ∧ ((EnrichedEventQuery._still_querying env i st).1 = false ↔
          0 < (env.statuses i).contacted
          ∧ (env.statuses i).contacted ≤ (env.statuses i).completed) := by
  intro env i st htok htime
  obtain ⟨tok, tmo, td, sub, tot, cv⟩ := st
  simp only at htime
  subst htime
  have hmain : EnrichedEventQuery._still_querying env i ⟨tok, 0, td, sub, tot, cv⟩ =
      (decide ((env.statuses i).contacted = 0
         ∨ (env.statuses i).completed < (env.statuses i).contacted),
       ⟨tok, 0, td, sub, tot, cv⟩, ⟨0, 1, 0⟩) := by
    simp only [EnrichedEventQuery._still_querying, htok, if_true, stillQueryingDecision]
    by_cases h0 : (env.statuses i).contacted = 0
    · simp [h0]
    · by_cases h1 : (env.statuses i).completed < (env.statuses i).contacted
      · simp [h0, h1]
      · simp [h0, h1]
  refine ⟨hmain, ?_⟩
  rw [hmain]
  simp
  omega

theorem C4_still_querying_with_zero_timeout_witness :
    EnrichedEventQuery._still_querying env0 0 { freshEEQ with query_token := some "J1" } =
      (decide ((env0.statuses 0).contacted = 0
         ∨ (env0.statuses 0).completed < (env0.statuses 0).contacted),
       { freshEEQ with query_token := some "J1" }, ⟨0, 1, 0⟩)
    ∧ ((EnrichedEventQuery._still_querying env0 0
          { freshEEQ with query_token := some "J1" }).1 = false ↔
        0 < (env0.statuses 0).contacted
        ∧ (env0.statuses 0).contacted ≤ (env0.statuses 0).completed) :=
  C4_still_querying_with_zero_timeout env0 0 { freshEEQ with query_token := some "J1" } rfl rfl

/-- C5: a `_submit()` call on an instance whose stored job token is present
(truthy) raises `ApiError` immediately, issues no job-creation POST, and
leaves the whole state — in particular the stored token — unchanged. -/
theorem C5_second_submit_raises :
    ∀ (env : AsyncEnv) (st : EEQ), truthy st.query_token = true →
      EnrichedEventQuery._submit env st =
        (st, some (.apiError ("Query already submitted: token " ++ st.query_token.getD "")), 0) := by
  intro env st h
  simp [EnrichedEventQuery._submit, h]

theorem C5_second_submit_raises_witness :
    EnrichedEventQuery._submit env0 { freshEEQ with query_token := some "TOK" } =
      ({ freshEEQ with query_token := some "TOK" },
       some (.apiError "Query already submitted: token TOK"), 0) :=
  C5_second_submit_raises env0 { freshEEQ with query_token := some "TOK" } rfl

/-- C6 counterexample: on an `EnrichedEventQuery` whose builder is still
empty, `or_()` raises (the builder requires an existing query), refuting
the claim that `or_()` on an `EnrichedEventQuery` never raises. -/
theorem C6_or_on_empty_builder_raises :
    EnrichedEventQuery.or_ ⟨none⟩ "process_name" "cmd.exe" =
      (⟨none⟩, some (.apiError "or_ requires a query to already exist")) := rfl

/-- C6 amended: `or_()` on a synchronous Query always raises `ApiError`
regardless of the builder state; `or_()` on an `EnrichedEventQuery`
overrides that rejection and, when the builder is non-empty, appends an
OR-combined clause without raising (returning the query for chaining),
while on an empty builder it raises the builder error instead. -/
theorem C6_or_support_amended :
    (∀ (qb : QB) (k v : String),
        Query.or_ qb k v =
          (qb, some (.apiError ".or_() cannot be called on Endpoint Standard queries.")))
    ∧ (∀ (e : FilterExpr) (k v : String),
        EnrichedEventQuery.or_ ⟨some e⟩ k v = (⟨some (.orE e (.leaf k v))⟩, none))
    ∧ (∀ (k v : String),
        EnrichedEventQuery.or_ ⟨none⟩ k v =
          (⟨none⟩, some (.apiError "or_ requires a query to already exist"))) :=
  ⟨fun _ _ _ => rfl, fun _ _ _ => rfl, fun _ _ => rfl⟩

/-- C7: `sort_by` is idempotent per key on an `EnrichedEventQuery`: if the
key already has a sort entry, the entry direction is overwritten in place
and the key order is unchanged; a new key is appended; starting from the
empty sort list, any call sequence keeps the keys distinct; and
`sort_by("ts", "ASC")` then `sort_by("ts", "DESC")` leaves exactly the one
entry ts/DESC. -/
theorem C7_sort_by_idempotent_per_key :
    (∀ (l : List SortItem) (key d : String), l.any (fun it => it.field = key) = true →
        EnrichedEventQuery.sort_by l key d =
          l.map (fun it => if it.field = key then ⟨it.field, d⟩ else it)
        ∧ (EnrichedEventQuery.sort_by l key d).map (fun it => it.field) =
            l.map (fun it => it.field))
    ∧ (∀ (l : List SortItem) (key d : String), l.any (fun it => it.field = key) = false →
        EnrichedEventQuery.sort_by l key d = l ++ [⟨key, d⟩])
    ∧ (∀ calls : List (String × String), ((sortSeq calls).map (fun it => it.field)).Nodup)
    ∧ sortSeq [("ts", "ASC"), ("ts", "DESC")] = [⟨"ts", "DESC"⟩] := by
  refine ⟨?_, ?_, ?_, by decide⟩
  · intro l key d h
    have h2 : EnrichedEventQuery.sort_by l key d =
        l.map (fun it => if it.field = key then ⟨it.field, d⟩ else it) := by
      simp only [EnrichedEventQuery.sort_by, h, if_true]
    exact ⟨h2, sort_by_fields_present l key d h⟩
  · intro l key d h
    simp [EnrichedEventQuery.sort_by, h]
  · intro calls
    exact sortSeq_nodup_from calls [] (by simp)

theorem C7_sort_by_idempotent_per_key_witness :
    EnrichedEventQuery.sort_by [⟨"ts", "ASC"⟩] "ts" "DESC" =
      [⟨"ts", "ASC"⟩].map (fun it => if it.field = "ts" then ⟨it.field, "DESC"⟩ else it)
    ∧ EnrichedEventQuery.sort_by [] "device_id" "ASC" = [] ++ [⟨"device_id", "ASC"⟩] :=
  ⟨(C7_sort_by_idempotent_per_key.1 [⟨"ts", "ASC"⟩] "ts" "DESC" (by decide)).1,
   C7_sort_by_idempotent_per_key.2.1 [] "device_id" "ASC" (by decide)⟩

/-- C8: for both query kinds, once `_count_valid` holds, `_count()` returns
the cached `_total_results`, changes nothing and issues no request; and any
number of repeated `_count()` calls on one instance issues at most one
count-determining request (the probe GET for the synchronous query, the
results GET for the asynchronous one — status polls are not
count-determining). -/
theorem C8_count_cached_at_most_one_request :
    (∀ (respTotal : Nat) (st : SyncSt), st.count_valid = true →
        Query._count respTotal st = (st.total_results, st, 0))
    ∧ (∀ (respTotal n : Nat) (st : SyncSt), sync_count_n respTotal n st ≤ 1)
    ∧ (∀ (env : AsyncEnv) (fuel i : Nat) (st : EEQ), st.count_valid = true →
        EnrichedEventQuery._count env fuel i st = (some (.ok st.total_results), i, st, ⟨0, 0, 0⟩))
    ∧ (∀ (env : AsyncEnv) (fuel n i : Nat) (st : EEQ), ee_count_n env fuel n i st ≤ 1) :=
  ⟨fun r st h => sync_count_valid r st h,
   fun r n st => sync_count_n_le_one r n st,
   fun env fuel i st h => ee_count_valid env fuel i st h,
   fun env fuel n i st => ee_count_n_le_one env fuel n i st⟩

theorem C8_count_cached_at_most_one_request_witness :
    Query._count 7 ⟨none, 0, 0, 42, true⟩ = (42, ⟨none, 0, 0, 42, true⟩, 0)
    ∧ sync_count_n 7 3 ⟨none, 0, 0, 0, false⟩ ≤ 1
    ∧ EnrichedEventQuery._count env0 5 0 { freshEEQ with total_results := 9, count_valid := true } =
        (some (.ok 9), 0, { freshEEQ with total_results := 9, count_valid := true }, ⟨0, 0, 0⟩)
    ∧ ee_count_n env0 5 3 0 freshEEQ ≤ 1 :=
  ⟨C8_count_cached_at_most_one_request.1 7 ⟨none, 0, 0, 42, true⟩ rfl,
   C8_count_cached_at_most_one_request.2.1 7 3 ⟨none, 0, 0, 0, false⟩,
   C8_count_cached_at_most_one_request.2.2.1 env0 5 0
     { freshEEQ with total_results := 9, count_valid := true } rfl,
   C8_count_cached_at_most_one_request.2.2.2 env0 5 3 0 freshEEQ⟩

/-- C9 counterexample: the integer 0 is a provided non-string argument, yet
`set_time_range(0, None, None)` raises nothing and modifies nothing,
because the `if start:` truthiness guard skips falsy values before any
type validation, refuting the claim that every non-string provided
argument raises. -/
theorem C9_nonstring_falsy_not_validated :
    PyV.isStr (.vint 0) = false
    ∧ PyV.truthy (.vint 0) = false
    ∧ EnrichedEventQuery.set_time_range ⟨none, none, none⟩ (.vint 0) .vnone .vnone =
        (⟨none, none, none⟩, none) :=
  ⟨rfl, by decide, rfl⟩

/-- C9 amended: each truthy argument of `set_time_range` is independently
validated as a string before assignment — a truthy non-string argument
raises `ApiError` before that argument modifies any field, keeping the
assignments made by earlier arguments of the same call; a falsy argument is
skipped without validation or assignment; and a truthy `window` string is
stored alongside previously set start/end entries without clearing or
overwriting them. -/
theorem C9_set_time_range_amended :
    (∀ (tr : TimeRange) (s e w : PyV), s.truthy = true → s.isStr = false →
        EnrichedEventQuery.set_time_range tr s e w =
          (tr, some (.apiError "Start time must be a string in ISO 8601 format.")))
    ∧ (∀ (tr : TimeRange) (s e w : PyV), (setStart tr s).2 = none →
        e.truthy = true → e.isStr = false →
        EnrichedEventQuery.set_time_range tr s e w =
          ((setStart tr s).1, some (.apiError "End time must be a string in ISO 8601 format.")))
    ∧ (∀ (tr : TimeRange) (s e w : PyV), (setStart tr s).2 = none →
        (setEnd (setStart tr s).1 e).2 = none → w.truthy = true → w.isStr = false →
        EnrichedEventQuery.set_time_range tr s e w =
          ((setEnd (setStart tr s).1 e).1, some (.apiError "Window must be a string.")))
    ∧ (∀ (tr : TimeRange) (ws : String), ws.isEmpty = false →
        EnrichedEventQuery.set_time_range tr .vnone .vnone (.vstr ws) =
          ({ tr with window := some ws }, none))
    ∧ (∀ (tr : TimeRange) (v : PyV), v.truthy = false → setStart tr v = (tr, none)) := by
  refine ⟨?_, ?_, ?_, ?_, ?_⟩
  · intro tr s e w ht hs
    have h1 : setStart tr s =
        (tr, some (.apiError "Start time must be a string in ISO 8601 format.")) := by
      cases s <;> simp_all [setStart, PyV.isStr, PyV.truthy]
    simp [EnrichedEventQuery.set_time_range, h1]
  · intro tr s e w hs ht hni
    have h2 : setEnd (setStart tr s).1 e =
        ((setStart tr s).1, some (.apiError "End time must be a string in ISO 8601 format.")) := by
      cases e <;> simp_all [setEnd, PyV.isStr, PyV.truthy]
    simp [EnrichedEventQuery.set_time_range, hs, h2]
  · intro tr s e w hs he ht hni
    have h3 : setWindow (setEnd (setStart tr s).1 e).1 w =
        ((setEnd (setStart tr s).1 e).1, some (.apiError "Window must be a string.")) := by
      cases w <;> simp_all [setWindow, PyV.isStr, PyV.truthy]
    simp [EnrichedEventQuery.set_time_range, hs, he, h3]
  · intro tr ws hw
    simp [EnrichedEventQuery.set_time_range, setStart, setEnd, setWindow, PyV.truthy, hw]
  · intro tr v hv
    simp [setStart, hv]

theorem C9_set_time_range_amended_witness :
    EnrichedEventQuery.set_time_range ⟨none, none, none⟩ (.vint 5) .vnone .vnone =
      (⟨none, none, none⟩, some (.apiError "Start time must be a string in ISO 8601 format."))
    ∧ EnrichedEventQuery.set_time_range ⟨none, none, none⟩ (.vstr "2020-10-20T20:34:07Z") (.vint 5) .vnone =
        ((setStart ⟨none, none, none⟩ (.vstr "2020-10-20T20:34:07Z")).1,
         some (.apiError "End time must be a string in ISO 8601 format."))
    ∧ EnrichedEventQuery.set_time_range ⟨none, none, none⟩ .vnone .vnone (.vbool true) =
        ((setEnd (setStart ⟨none, none, none⟩ .vnone).1 .vnone).1,
         some (.apiError "Window must be a string."))
    ∧ EnrichedEventQuery.set_time_range ⟨some "a", some "b", none⟩ .vnone .vnone (.vstr "-3d") =
        ({ TimeRange.mk (some "a") (some "b") none with window := some "-3d" }, none)
    ∧ setStart ⟨some "a", none, none⟩ (.vint 0) = (⟨some "a", none, none⟩, none) :=
  ⟨C9_set_time_range_amended.1 ⟨none, none, none⟩ (.vint 5) .vnone .vnone (by decide) (by decide),
   C9_set_time_range_amended.2.1 ⟨none, none, none⟩ (.vstr "2020-10-20T20:34:07Z") (.vint 5) .vnone rfl (by decide) (by decide),
   C9_set_time_range_amended.2.2.1 ⟨none, none, none⟩ .vnone .vnone (.vbool true) rfl rfl (by decide) (by decide),
   C9_set_time_range_amended.2.2.2.1 ⟨some "a", some "b", none⟩ "-3d" (by decide),
   C9_set_time_range_amended.2.2.2.2 ⟨some "a", none, none⟩ (.vint 0) (by decide)⟩

/-- C10: a first `_submit` on an unsubmitted query succeeds (one POST,
token stored); the duplicate-submission `ApiError` can only arise from a
`_submit` call on an instance whose token is already truthy;
`_still_querying` on an unsubmitted query implicitly submits (one POST,
token stored) before checking status; `_count` and `_search` can fail only
through the timed-out raise, never with the duplicate-submission error;
`_count` on an unsubmitted, count-invalid query performs exactly one
implicit submission; and concretely, on a benign environment, `_count`,
`_search` and `_still_querying` on a fresh query all complete normally. -/
theorem C10_implicit_submit_on_first_use :
    (∀ (env : AsyncEnv) (st : EEQ), st.query_token = none →
        EnrichedEventQuery._submit env st =
          ({ st with query_token := env.job_id, timed_out := false, submit_time := env.submitTime }, none, 1))
    ∧ (∀ (env : AsyncEnv) (st : EEQ) (e : PyExc),
        (EnrichedEventQuery._submit env st).2.1 = some e → truthy st.query_token = true)
    ∧ (∀ (env : AsyncEnv) (i : Nat) (st : EEQ), st.query_token = none →
        (EnrichedEventQuery._still_querying env i st).2.1.query_token = env.job_id
        ∧ (EnrichedEventQuery._still_querying env i st).2.2.posts = 1)
    ∧ (∀ (env : AsyncEnv) (fuel i : Nat) (st : EEQ) (e : PyExc),
        (EnrichedEventQuery._count env fuel i st).1 = some (.error e) → e = timeoutRaiseResult)
    ∧ (∀ (env : AsyncEnv) (fuel i start rl : Nat) (st : EEQ) (e : PyExc),
        (EnrichedEventQuery._search env fuel i st start rl).1 = some (.error e) →
          e = timeoutRaiseResult)
    ∧ (∀ (env : AsyncEnv) (fuel i : Nat) (st : EEQ),
        truthy env.job_id = true → st.query_token = none → st.count_valid = false → 1 ≤ fuel →
        (EnrichedEventQuery._count env fuel i st).2.2.2.posts = 1)
    ∧ ((EnrichedEventQuery._count env0 5 0 freshEEQ).1 = some (.ok 3)
       ∧ (EnrichedEventQuery._search env0 5 0 freshEEQ 0 0).1 = some (.ok [0, 1, 2])
       ∧ (EnrichedEventQuery._still_querying env0 0 freshEEQ).2.1.query_token = some "J1") := by
  refine ⟨?_, ?_, ?_, ?_, ?_, ?_, rfl, rfl, rfl⟩
  · intro env st h
    simp [EnrichedEventQuery._submit, truthy, h]
  · intro env st e h
    by_cases htok : truthy st.query_token
    · exact htok
    · simp [EnrichedEventQuery._submit, htok] at h
  · intro env i st h
    simp [EnrichedEventQuery._still_querying, truthy, h]
  · intro env fuel i st e h
    by_cases hv : st.count_valid
    · simp [EnrichedEventQuery._count, hv] at h
    · simp only [EnrichedEventQuery._count, hv, if_false, Bool.false_eq_true] at h
      split at h
      · split at h
        · simp at h; exact h.symm
        · simp at h
      · simp at h
  · intro env fuel i start rl st e h
    by_cases htok : truthy st.query_token
    · simp only [EnrichedEventQuery._search, htok, if_true] at h
      split at h
      · split at h
        · simp at h; exact h.symm
        · simp at h
      · simp at h
    · simp only [EnrichedEventQuery._search, htok, Bool.false_eq_true, if_false] at h
      split at h
      · split at h
        · simp at h; exact h.symm
        · simp at h
      · simp at h
  · intro env fuel i st hjob htok hcv hf
    simp only [EnrichedEventQuery._count, hcv, if_false, Bool.false_eq_true]
    have hp := pollLoop_posts_one env hjob fuel i st htok hf
    split
    · split
      · exact hp
      · simp [Trace.add, hp]
    · exact hp

theorem C10_implicit_submit_on_first_use_witness :
    EnrichedEventQuery._submit env0 freshEEQ =
      ({ freshEEQ with query_token := env0.job_id, timed_out := false, submit_time := env0.submitTime }, none, 1)
    ∧ truthy (EEQ.query_token { freshEEQ with query_token := some "T" }) = true
    ∧ (EnrichedEventQuery._still_querying env0 0 freshEEQ).2.1.query_token = env0.job_id
    ∧ timeoutRaiseResult = timeoutRaiseResult
    ∧ (EnrichedEventQuery._count env0 5 0 freshEEQ).2.2.2.posts = 1 :=
  ⟨C10_implicit_submit_on_first_use.1 env0 freshEEQ rfl,
   C10_implicit_submit_on_first_use.2.1 env0 { freshEEQ with query_token := some "T" }
     (.apiError "Query already submitted: token T") rfl,
   (C10_implicit_submit_on_first_use.2.2.1 env0 0 freshEEQ rfl).1,
   C10_implicit_submit_on_first_use.2.2.2.1 env3 5 0 st3 timeoutRaiseResult rfl,
   C10_implicit_submit_on_first_use.2.2.2.2.2.1 env0 5 0 freshEEQ rfl rfl rfl (by omega)⟩
